import Mathlib

/-!
Verification of the `@flyyer/variables` module (`src/index.ts`): the schema
helper layer (`VariableBuilder`), the type-detection predicates (`Is`) and the
validation facade (`Validator`), shallowly embedded over a model of JavaScript
values. Objects are association lists evaluated left to right, so a later
binding overwrites an earlier one exactly as a JavaScript object literal with
spreads does.
-/

set_option maxHeartbeats 1000000

namespace Flyyer

/-- Model of the JavaScript values this module manipulates. `vSym` models the
symbols TypeBox uses as kind tags (`StringKind`, `EnumKind`), `vDate` models a
`Date` object carrying the string its `toJSON` produces, and `vFunc` an opaque
function value. Numbers are rationals; the module never exercises float
specifics. -/
inductive JsValue where
  | vNull : JsValue
  | vUndefined : JsValue
  | vBool (b : Bool) : JsValue
  | vNum (q : Rat) : JsValue
  | vStr (s : String) : JsValue
  | vSym (s : String) : JsValue
  | vDate (iso : String) : JsValue
  | vFunc : JsValue
  | vArr (elems : List JsValue) : JsValue
  | vObj (fields : List (String × JsValue)) : JsValue
deriving Repr

/-- A JavaScript object as an association list: later bindings win. -/
abbrev JsFields := List (String × JsValue)

/-- Property lookup with the last binding winning, matching JavaScript object
literal evaluation (later writes, including spreads, overwrite earlier ones). -/
def getProp : JsFields → String → Option JsValue
  | [], _ => none
  | p :: rest, k =>
    match getProp rest k with
    | some v => some v
    | none => if p.1 = k then some p.2 else none

/-- JavaScript truthiness, used by the guards in the `Is` predicates. -/
def truthy : JsValue → Bool
  | .vNull => false
  | .vUndefined => false
  | .vBool b => b
  | .vNum q => decide (q ≠ 0)
  | .vStr s => decide (s ≠ "")
  | .vSym _ => true
  | .vDate _ => true
  | .vFunc => true
  | .vArr _ => true
  | .vObj _ => true

/-- Errors thrown synchronously by the embedded code. -/
inductive JsErr where
  | typeError (msg : String) : JsErr
  | syntaxError (msg : String) : JsErr
deriving Repr, DecidableEq

/-- Property access `v[k]` per JavaScript: throws a TypeError on `null` and
`undefined`; on an object returns the property or `undefined`; on other
primitives unknown properties read as `undefined`. -/
def getMember : JsValue → String → Except JsErr JsValue
  | .vNull, _ => .error (.typeError "Cannot read properties of null")
  | .vUndefined, _ => .error (.typeError "Cannot read properties of undefined")
  | .vObj fs, k => .ok ((getProp fs k).getD .vUndefined)
  | _, _ => .ok .vUndefined

/-- Strict equality `v === "lit"` against a string literal. -/
def strEq (v : JsValue) (lit : String) : Bool :=
  match v with
  | .vStr s => s = lit
  | _ => false

/-- `StringKind` symbol tag from TypeBox. -/
def StringKind : JsValue := .vSym "StringKind"

/-- `EnumKind` symbol tag from TypeBox. -/
def EnumKind : JsValue := .vSym "EnumKind"

/-- `const URI_REFERENCE: StringFormatOption = "uri-reference"`. -/
def URI_REFERENCE : String := "uri-reference"

/-- `const MIME_IMAGE = "image/*"`. -/
def MIME_IMAGE : String := "image/*"

/-- `const MIME_FONT = "font/*"`. -/
def MIME_FONT : String := "font/*"

/-! ### JavaScript `isNaN` on strings

`EnumKeys` filters `Object.keys(item)` with `key => isNaN(key as any)`. For a
string argument, `isNaN` applies ECMA-262 ToNumber: trim whitespace, map the
empty remainder to 0, otherwise parse a numeric literal (signed decimal with
optional fraction and exponent, `Infinity`, or unsigned hex/binary/octal with
`0x`/`0b`/`0o` prefixes); the result is NaN exactly when that parse fails. -/

/-- ECMA-262 whitespace and line terminators trimmed by ToNumber. -/
def jsWhitespace (c : Char) : Bool :=
  c = ' ' || c = '\t' || c = '\n' || c = '\r' ||
  c.toNat = 11 || c.toNat = 12 || c.toNat = 160 || c.toNat = 65279 ||
  c.toNat = 8232 || c.toNat = 8233

/-- Trim leading and trailing ToNumber whitespace. -/
def trimWs (l : List Char) : List Char :=
  ((l.dropWhile jsWhitespace).reverse.dropWhile jsWhitespace).reverse

/-- Hexadecimal digit, either case. -/
def isHexChar (c : Char) : Bool :=
  c.isDigit || ('A' ≤ c && c ≤ 'F') || ('a' ≤ c && c ≤ 'f')

/-- Exponent body: optional sign then one or more decimal digits. -/
def isSignedDigits : List Char → Bool
  | [] => false
  | c :: rest =>
    if c = '+' || c = '-' then !rest.isEmpty && rest.all Char.isDigit
    else (c :: rest).all Char.isDigit

/-- Split a character list at the first `e`/`E` (the exponent marker). -/
def splitExp : List Char → List Char × Option (List Char)
  | [] => ([], none)
  | c :: rest =>
    if c = 'e' || c = 'E' then ([], some rest)
    else
      let (a, b) := splitExp rest
      (c :: a, b)

/-- Unsigned decimal mantissa: digits, digits dot digits?, or dot digits. -/
def isUnsignedDecNoExp (l : List Char) : Bool :=
  let (ds, rest) := l.span Char.isDigit
  match rest with
  | [] => !ds.isEmpty
  | '.' :: frac => (!ds.isEmpty || !frac.isEmpty) && frac.all Char.isDigit
  | _ => false

/-- StrUnsignedDecimalLiteral: `Infinity` or mantissa with optional exponent. -/
def isUnsignedDecimal (l : List Char) : Bool :=
  l == "Infinity".data ||
    (let (mant, expo) := splitExp l
     isUnsignedDecNoExp mant &&
       match expo with
       | none => true
       | some e => isSignedDigits e)

/-- StrDecimalLiteral: optional sign then an unsigned decimal literal. -/
def isSignedDecimal : List Char → Bool
  | [] => false
  | c :: rest =>
    if c = '+' || c = '-' then isUnsignedDecimal rest
    else isUnsignedDecimal (c :: rest)

/-- StrNumericLiteral: hex/binary/octal literal (no sign allowed) or a signed
decimal literal. -/
def isNumericCore : List Char → Bool
  | '0' :: x :: rest =>
    if x = 'x' || x = 'X' then !rest.isEmpty && rest.all isHexChar
    else if x = 'b' || x = 'B' then !rest.isEmpty && rest.all (fun c => c = '0' || c = '1')
    else if x = 'o' || x = 'O' then !rest.isEmpty && rest.all (fun c => '0' ≤ c && c ≤ '7')
    else isSignedDecimal ('0' :: x :: rest)
  | l => isSignedDecimal l

/-- `isNaN(s)` for a string argument: ToNumber(s) is NaN. The empty (or
all-whitespace) string coerces to 0, hence is not NaN. -/
def jsIsNaN (s : String) : Bool :=
  let t := trimWs s.data
  if t.isEmpty then false else !(isNumericCore t)

/-! ### The schema helper layer (`VariableBuilder`) -/

namespace VariableBuilder

/-- `URL(options)`: literal `(format, ...options, kind, type)` — the semantic
format first, the caller options spread second, `kind`/`type` written last. -/
def URL (options : JsFields) : JsFields :=
  [("format", .vStr URI_REFERENCE)] ++ options ++
    [("kind", StringKind), ("type", .vStr "string")]

/-- `Image(options)`: literal `(contentMediaType, format, ...options, kind, type)`. -/
def Image (options : JsFields) : JsFields :=
  [("contentMediaType", .vStr MIME_IMAGE), ("format", .vStr URI_REFERENCE)] ++ options ++
    [("kind", StringKind), ("type", .vStr "string")]

/-- `Font(options)`: literal `(contentMediaType, ...options, kind, type)` — no
`format` marker. -/
def Font (options : JsFields) : JsFields :=
  [("contentMediaType", .vStr MIME_FONT)] ++ options ++
    [("kind", StringKind), ("type", .vStr "string")]

/-- `ColorHex(options)`: literal `(format, ...options, kind, type)` with format
`"color-hex"`. -/
def ColorHex (options : JsFields) : JsFields :=
  [("format", .vStr "color-hex")] ++ options ++
    [("kind", StringKind), ("type", .vStr "string")]

/-- `Email(options)`: format `"email"`. -/
def Email (options : JsFields) : JsFields :=
  [("format", .vStr "email")] ++ options ++
    [("kind", StringKind), ("type", .vStr "string")]

/-- `Date(options)`: format `"date"`. -/
def Date (options : JsFields) : JsFields :=
  [("format", .vStr "date")] ++ options ++
    [("kind", StringKind), ("type", .vStr "string")]

/-- `Time(options)`: format `"time"`. -/
def Time (options : JsFields) : JsFields :=
  [("format", .vStr "time")] ++ options ++
    [("kind", StringKind), ("type", .vStr "string")]

/-- `DateTime(options)`: format `"date-time"`. -/
def DateTime (options : JsFields) : JsFields :=
  [("format", .vStr "date-time")] ++ options ++
    [("kind", StringKind), ("type", .vStr "string")]

/-- `Nullable(schema)`: literal `(...schema, nullable: true)`. -/
def Nullable (schema : JsFields) : JsFields :=
  schema ++ [("nullable", .vBool true)]

/-- `EnumKeys(item, options)`: filter `Object.keys(item)` by `isNaN`, then
literal `(...options, kind, type, enum)` — options first, the computed fields
written last. -/
def EnumKeys (item : JsFields) (options : JsFields) : JsFields :=
  let keys := (item.map Prod.fst).filter (fun key => jsIsNaN key)
  options ++ [("kind", EnumKind), ("type", .vStr "string"),
    ("enum", .vArr (keys.map .vStr))]

end VariableBuilder

/-! ### The type-detection predicates (`Is`) -/

namespace Is

/-- `Is.Nullable(v)`: `v["nullable"] === true` — the property access itself
throws a TypeError when `v` is nullish. -/
def Nullable (v : JsValue) : Except JsErr Bool :=
  (getMember v "nullable").map (fun p =>
    match p with
    | .vBool true => true
    | _ => false)

/-- `Is.URL(v)`: explicit falsy guard throwing `Missing argument`, then
`v["type"] === "string" && v["format"] === URI_REFERENCE`. -/
def URL (v : JsValue) : Except JsErr Bool :=
  if truthy v = false then .error (.typeError "Missing argument")
  else
    (getMember v "type").bind (fun t =>
      (getMember v "format").map (fun f =>
        strEq t "string" && strEq f URI_REFERENCE))

/-- `Is.Image(v)`: `Is.URL(v) && v["contentMediaType"] === MIME_IMAGE` — a
throw from `Is.URL` propagates; short-circuit on a false left operand. -/
def Image (v : JsValue) : Except JsErr Bool :=
  (URL v).bind (fun u =>
    if u then (getMember v "contentMediaType").map (fun cm => strEq cm MIME_IMAGE)
    else .ok false)

/-- `Is.Font(v)`: explicit falsy guard throwing `Missing argument`, then
`v["type"] === "string" && v["contentMediaType"] === MIME_FONT`. -/
def Font (v : JsValue) : Except JsErr Bool :=
  if truthy v = false then .error (.typeError "Missing argument")
  else
    (getMember v "type").bind (fun t =>
      (getMember v "contentMediaType").map (fun cm =>
        strEq t "string" && strEq cm MIME_FONT))

end Is

/-! ### The validation facade (`Validator`) -/

mutual

/-- The effect of `JSON.parse(JSON.stringify(v))` (the clone on line 178) per
ECMA-262: `undefined`, functions and symbols stringify to undefined — at top
level `JSON.parse` then throws a SyntaxError, as an object property value the
property is omitted, as an array element it becomes `null`; a `Date`
stringifies to its `toJSON` ISO string. `none` marks the values whose
stringification is undefined. -/
def jsonRoundTrip : JsValue → Option JsValue
  | .vNull => some .vNull
  | .vUndefined => none
  | .vFunc => none
  | .vSym _ => none
  | .vBool b => some (.vBool b)
  | .vNum q => some (.vNum q)
  | .vStr s => some (.vStr s)
  | .vDate iso => some (.vStr iso)
  | .vArr xs => some (.vArr (jsonRoundTripArr xs))
  | .vObj fs => some (.vObj (jsonRoundTripFields fs))

/-- Array elements under the JSON round trip: elements whose stringification
is undefined become `null`. -/
def jsonRoundTripArr : List JsValue → List JsValue
  | [] => []
  | x :: xs => ((jsonRoundTrip x).getD .vNull) :: jsonRoundTripArr xs

/-- Object properties under the JSON round trip: properties whose value does
not stringify are omitted. -/
def jsonRoundTripFields : List (String × JsValue) → List (String × JsValue)
  | [] => []
  | (k, x) :: fs =>
    match jsonRoundTrip x with
    | some w => (k, w) :: jsonRoundTripFields fs
    | none => jsonRoundTripFields fs

end

/-- Result record of `Validator.parse`: the mutated clone, the validity flag
and the engine error list (AJV leaves `errors` null when valid). -/
structure ParseResult where
  data : JsValue
  isValid : Bool
  errors : Option (List String)
deriving Repr

/-- A compiled validator from the external engine (AJV), in mutating mode: it
maps an instance to the mutated instance (defaults filled, types coerced,
extra properties stripped), the validity flag and the error list. The engine
itself is an external collaborator, so facade theorems quantify over it. -/
structure AjvEngine where
  run : JsValue → JsValue × Bool × Option (List String)

namespace Validator

/-- `parse(variables)` (lines 176-181): clone via
`JSON.parse(JSON.stringify(variables))` — which throws a SyntaxError when the
stringification is undefined — then run the compiled validator on the clone
and return the record. -/
def parse (E : AjvEngine) (vars : JsValue) : Except JsErr ParseResult :=
  match jsonRoundTrip vars with
  | none => .error (.syntaxError "Unexpected token u in JSON at position 0")
  | some cloned =>
    let r := E.run cloned
    .ok { data := r.1, isValid := r.2.1, errors := r.2.2 }

/-- `validate(variables)` (lines 201-204) under explicit state passing: the
compiled validator runs on the caller instance itself, so the instance's
post-call state is the engine-mutated value; only the boolean is returned to
the caller. -/
def validate (E : AjvEngine) (vars : JsValue) : Bool × JsValue :=
  let r := E.run vars
  (r.2.1, r.1)

/-- `parse` under explicit state passing: the caller instance is read only
through `JSON.stringify`, so its post-call state is the original value. -/
def parseSt (E : AjvEngine) (vars : JsValue) : Except JsErr ParseResult × JsValue :=
  (parse E vars, vars)

end Validator

/-- `REGEX_COLOR_HEX = ` the case-insensitive regular expression anchored at
both ends: an optional `#`, then three, four, six or eight hex digits (line
112), as a decidable test. -/
def REGEX_COLOR_HEX (s : String) : Bool :=
  let core := if s.data.head? = some '#' then s.data.tail else s.data
  core.all isHexChar &&
    (core.length = 3 || core.length = 4 || core.length = 6 || core.length = 8)

/-- The constructor's custom format registration (line 160):
`ajv.addFormat("color-hex", REGEX_COLOR_HEX)`. -/
def customFormats : List (String × (String → Bool)) :=
  [("color-hex", REGEX_COLOR_HEX)]

/-- Modelled from the spec: the external validation engine (AJV) is not part
of this repository; section 6 of the spec requires it to check string instance
values against registered string formats. This minimal compiled validator for
an object schema checks each schema property carrying a `format` marker
against the registered format table, without mutation. -/
def formatEngine (schema : List (String × JsFields))
    (formats : List (String × (String → Bool))) : AjvEngine :=
  ⟨fun v =>
    match v with
    | .vObj fs =>
      let ok := schema.all (fun pr =>
        match getProp fs pr.1, getProp pr.2 "format" with
        | some (.vStr s), some (.vStr fmt) =>
          match formats.lookup fmt with
          | some test => test s
          | none => true
        | _, _ => true)
      (v, ok, if ok then none else some ["must match format"])
    | w => (w, false, some ["must be object"])⟩

/-- Modelled from the spec: a compiled validator for the repository test
schema — an object with one optional integer property `number` of default 32 —
with `useDefaults`: it fills the default in place when the property is absent,
accepts numbers, rejects other values with an error list. -/
def defaultsEngine : AjvEngine :=
  ⟨fun v =>
    match v with
    | .vObj fs =>
      match getProp fs "number" with
      | none => (.vObj (fs ++ [("number", .vNum 32)]), true, none)
      | some (.vNum _) => (.vObj fs, true, none)
      | some _ => (.vObj fs, false, some ["/number must be integer"])
    | w => (w, false, some ["must be object"])⟩

/-! ## Lemmas about property lookup -/

/-- Lookup over a concatenation: the later segment wins. -/
theorem getProp_append (xs ys : JsFields) (k : String) :
    getProp (xs ++ ys) k =
      match getProp ys k with
      | some v => some v
      | none => getProp xs k := by
  induction xs with
  | nil => cases h : getProp ys k <;> simp [getProp, h]
  | cons p rest ih =>
    simp only [List.cons_append, getProp, List.append_eq]
    rw [ih]
    cases h : getProp ys k <;> cases h2 : getProp rest k <;> simp [h, h2]

/-- Lookup in the trailing `kind`/`type` pair every string helper writes after
the options spread. -/
theorem getProp_postKT (k : String) :
    getProp [("kind", StringKind), ("type", JsValue.vStr "string")] k =
      if k = "type" then some (JsValue.vStr "string")
      else if k = "kind" then some StringKind
      else none := by
  by_cases ht : k = "type"
  · subst ht; rfl
  · by_cases hk : k = "kind"
    · subst hk; rfl
    · simp [getProp, ht, hk, Ne.symm ht, Ne.symm hk]

/-- Lookup in a string-helper literal `pre ++ options ++ (kind, type)`: the
trailing pair wins for `kind`/`type`, the options win over the semantic
defaults for everything else. -/
theorem getProp_sandwich (pre opts : JsFields) (k : String) :
    getProp (pre ++ opts ++ [("kind", StringKind), ("type", JsValue.vStr "string")]) k =
      if k = "type" then some (JsValue.vStr "string")
      else if k = "kind" then some StringKind
      else
        match getProp opts k with
        | some v => some v
        | none => getProp pre k := by
  rw [getProp_append, getProp_postKT, getProp_append]
  by_cases ht : k = "type"
  · simp [ht]
  · by_cases hk : k = "kind" <;> simp [ht, hk]

/-- Specialisation of `getProp_sandwich` away from the trailing pair. -/
theorem getProp_sandwich_other (pre opts : JsFields) (k : String)
    (hk1 : k ≠ "type") (hk2 : k ≠ "kind") :
    getProp (pre ++ opts ++ [("kind", StringKind), ("type", JsValue.vStr "string")]) k =
      match getProp opts k with
      | some v => some v
      | none => getProp pre k := by
  rw [getProp_sandwich]; simp [hk1, hk2]

/-- Lookup in the trailing `kind`/`type`/`enum` triple `EnumKeys` writes after
the options spread. -/
theorem getProp_triple (a b c : JsValue) (k : String) :
    getProp [("kind", a), ("type", b), ("enum", c)] k =
      if k = "enum" then some c
      else if k = "type" then some b
      else if k = "kind" then some a
      else none := by
  by_cases he : k = "enum"
  · subst he; rfl
  · by_cases ht : k = "type"
    · subst ht; rfl
    · by_cases hk : k = "kind"
      · subst hk; rfl
      · simp [getProp, he, ht, hk, Ne.symm he, Ne.symm ht, Ne.symm hk]

/-- On an object (truthy, so no throw), `Is.URL` reduces to its two property
comparisons. -/
theorem isURL_obj (fs : JsFields) :
    Is.URL (.vObj fs) =
      .ok (strEq ((getProp fs "type").getD .vUndefined) "string" &&
        strEq ((getProp fs "format").getD .vUndefined) URI_REFERENCE) := rfl

/-- On an object (truthy, so no throw), `Is.Font` reduces to its two property
comparisons. -/
theorem isFont_obj (fs : JsFields) :
    Is.Font (.vObj fs) =
      .ok (strEq ((getProp fs "type").getD .vUndefined) "string" &&
        strEq ((getProp fs "contentMediaType").getD .vUndefined) MIME_FONT) := rfl

/-! ## The claims -/

/-- Claim C1: the claim says `Validator.parse` never throws and always returns
a record. The code throws at the instance `undefined` (as in the method's own
doc example `validator.parse()`): `JSON.stringify(undefined)` is `undefined`,
so `JSON.parse` raises a SyntaxError before the validator ever runs. This
theorem evaluates the embedded `parse` at that failing input. -/
theorem claim_C1_parse_throws_on_undefined :
    Validator.parse defaultsEngine JsValue.vUndefined =
      Except.error (JsErr.syntaxError "Unexpected token u in JSON at position 0") := rfl

/-- Claim C2, counterexample: a caller passing `type` in the options does not
see that value in the returned fragment — `URL` with the option
`type: "number"` still carries `type: "string"`, because the literal writes
`type` after the options spread. -/
theorem claim_C2_counterexample :
    getProp (VariableBuilder.URL [("type", JsValue.vStr "number")]) "type" =
        some (JsValue.vStr "string") ∧
      getProp (VariableBuilder.URL [("type", JsValue.vStr "number")]) "type" ≠
        some (JsValue.vStr "number") := by
  refine ⟨rfl, ?_⟩
  intro h
  rw [show getProp (VariableBuilder.URL [("type", JsValue.vStr "number")]) "type" =
    some (JsValue.vStr "string") from rfl] at h
  injection h with h1
  injection h1 with h2
  exact absurd h2 (by decide)

/-- Claim C2, amended: every string helper applies its semantic
`format`/`contentMediaType` defaults first and spreads the caller options
second, so the caller can override `format` and `contentMediaType`; but `kind`
and `type` are written after the spread, so the returned fragment's `type` is
always `"string"` regardless of the options. -/
theorem claim_C2_amended (opts : JsFields) :
    (getProp (VariableBuilder.URL opts) "type" = some (JsValue.vStr "string") ∧
      getProp (VariableBuilder.Image opts) "type" = some (JsValue.vStr "string") ∧
      getProp (VariableBuilder.Font opts) "type" = some (JsValue.vStr "string") ∧
      getProp (VariableBuilder.Email opts) "type" = some (JsValue.vStr "string") ∧
      getProp (VariableBuilder.Date opts) "type" = some (JsValue.vStr "string") ∧
      getProp (VariableBuilder.Time opts) "type" = some (JsValue.vStr "string") ∧
      getProp (VariableBuilder.DateTime opts) "type" = some (JsValue.vStr "string") ∧
      getProp (VariableBuilder.ColorHex opts) "type" = some (JsValue.vStr "string")) ∧
    (getProp (VariableBuilder.URL opts) "format" =
        some ((getProp opts "format").getD (JsValue.vStr URI_REFERENCE)) ∧
      getProp (VariableBuilder.Image opts) "format" =
        some ((getProp opts "format").getD (JsValue.vStr URI_REFERENCE)) ∧
      getProp (VariableBuilder.Email opts) "format" =
        some ((getProp opts "format").getD (JsValue.vStr "email")) ∧
      getProp (VariableBuilder.Date opts) "format" =
        some ((getProp opts "format").getD (JsValue.vStr "date")) ∧
      getProp (VariableBuilder.Time opts) "format" =
        some ((getProp opts "format").getD (JsValue.vStr "time")) ∧
      getProp (VariableBuilder.DateTime opts) "format" =
        some ((getProp opts "format").getD (JsValue.vStr "date-time")) ∧
      getProp (VariableBuilder.ColorHex opts) "format" =
        some ((getProp opts "format").getD (JsValue.vStr "color-hex")) ∧
      getProp (VariableBuilder.Font opts) "format" = getProp opts "format") ∧
    (getProp (VariableBuilder.Image opts) "contentMediaType" =
        some ((getProp opts "contentMediaType").getD (JsValue.vStr MIME_IMAGE)) ∧
      getProp (VariableBuilder.Font opts) "contentMediaType" =
        some ((getProp opts "contentMediaType").getD (JsValue.vStr MIME_FONT)) ∧
      getProp (VariableBuilder.URL opts) "contentMediaType" =
        getProp opts "contentMediaType") := by
  have hty : ∀ pre : JsFields,
      getProp (pre ++ opts ++ [("kind", StringKind), ("type", JsValue.vStr "string")])
        "type" = some (JsValue.vStr "string") := by
    intro pre; rw [getProp_sandwich]; simp
  have hfmt : ∀ (pre : JsFields) (d : JsValue), getProp pre "format" = some d →
      getProp (pre ++ opts ++ [("kind", StringKind), ("type", JsValue.vStr "string")])
        "format" = some ((getProp opts "format").getD d) := by
    intro pre d hd
    rw [getProp_sandwich_other pre opts "format" (by decide) (by decide)]
    cases h : getProp opts "format" <;> simp [h, hd]
  have hcmt : ∀ (pre : JsFields) (d : JsValue), getProp pre "contentMediaType" = some d →
      getProp (pre ++ opts ++ [("kind", StringKind), ("type", JsValue.vStr "string")])
        "contentMediaType" = some ((getProp opts "contentMediaType").getD d) := by
    intro pre d hd
    rw [getProp_sandwich_other pre opts "contentMediaType" (by decide) (by decide)]
    cases h : getProp opts "contentMediaType" <;> simp [h, hd]
  have hnone : ∀ (pre : JsFields) (k : String), k ≠ "type" → k ≠ "kind" →
      getProp pre k = none →
      getProp (pre ++ opts ++ [("kind", StringKind), ("type", JsValue.vStr "string")])
        k = getProp opts k := by
    intro pre k h1 h2 hd
    rw [getProp_sandwich_other pre opts k h1 h2]
    cases h : getProp opts k <;> simp [h, hd]
  refine ⟨⟨hty _, hty _, hty _, hty _, hty _, hty _, hty _, hty _⟩,
    ⟨hfmt _ _ rfl, hfmt _ _ rfl, hfmt _ _ rfl, hfmt _ _ rfl, hfmt _ _ rfl,
      hfmt _ _ rfl, hfmt _ _ rfl, hnone _ _ (by decide) (by decide) rfl⟩,
    ⟨hcmt _ _ rfl, hcmt _ _ rfl, hnone _ _ (by decide) (by decide) rfl⟩⟩

/-- Claim C3, counterexample: the claim says `Is.Nullable` and `Is.Image`
return `false` on nullish input without throwing; in fact `Is.Nullable(null)`
throws a TypeError from the property access `null["nullable"]`, and
`Is.Image(null)` throws the argument-missing TypeError through its call to
`Is.URL`. -/
theorem claim_C3_counterexample :
    Is.Nullable JsValue.vNull =
        Except.error (JsErr.typeError "Cannot read properties of null") ∧
      Is.Nullable JsValue.vNull ≠ Except.ok false ∧
      Is.Image JsValue.vNull = Except.error (JsErr.typeError "Missing argument") ∧
      Is.Image JsValue.vNull ≠ Except.ok false := by
  refine ⟨rfl, ?_, rfl, ?_⟩ <;> intro h <;> exact Except.noConfusion h

/-- Claim C3, amended: there is no throw/no-throw asymmetry on nullish input —
all four predicates throw a TypeError on `null` and on `undefined`: `Is.URL`,
`Is.Font` and `Is.Image` (via `Is.URL`) throw the argument-missing TypeError,
and `Is.Nullable` throws the property-access TypeError. -/
theorem claim_C3_amended :
    Is.URL JsValue.vNull = Except.error (JsErr.typeError "Missing argument") ∧
      Is.URL JsValue.vUndefined = Except.error (JsErr.typeError "Missing argument") ∧
      Is.Font JsValue.vNull = Except.error (JsErr.typeError "Missing argument") ∧
      Is.Font JsValue.vUndefined = Except.error (JsErr.typeError "Missing argument") ∧
      Is.Image JsValue.vNull = Except.error (JsErr.typeError "Missing argument") ∧
      Is.Image JsValue.vUndefined = Except.error (JsErr.typeError "Missing argument") ∧
      Is.Nullable JsValue.vNull =
        Except.error (JsErr.typeError "Cannot read properties of null") ∧
      Is.Nullable JsValue.vUndefined =
        Except.error (JsErr.typeError "Cannot read properties of undefined") :=
  ⟨rfl, rfl, rfl, rfl, rfl, rfl, rfl, rfl⟩

/-- Claim C4, counterexample: the claim asserts `Is.URL(Image(opts)) = false`;
in fact an `Image` fragment carries both `type: "string"` and
`format: "uri-reference"`, so `Is.URL` on it returns `true`. -/
theorem claim_C4_counterexample :
    Is.URL (.vObj (VariableBuilder.Image [])) = Except.ok true ∧
      Is.URL (.vObj (VariableBuilder.Image [])) ≠ Except.ok false := by
  refine ⟨rfl, ?_⟩
  intro h
  rw [show Is.URL (.vObj (VariableBuilder.Image [])) = Except.ok true from rfl] at h
  injection h with h1
  exact absurd h1 (by decide)

/-- Claim C4, amended: for options not touching the marker fields, each
predicate accepts its own helper's fragment, and every cross pair is `false`
except `Is.URL` on an `Image` fragment, which is `true` because `Image` builds
on the `URL` markers. -/
theorem claim_C4_amended (opts : JsFields)
    (_hty : getProp opts "type" = none)
    (hf : getProp opts "format" = none)
    (hc : getProp opts "contentMediaType" = none) :
    Is.URL (.vObj (VariableBuilder.URL opts)) = Except.ok true ∧
    Is.Image (.vObj (VariableBuilder.Image opts)) = Except.ok true ∧
    Is.Font (.vObj (VariableBuilder.Font opts)) = Except.ok true ∧
    Is.URL (.vObj (VariableBuilder.Image opts)) = Except.ok true ∧
    Is.URL (.vObj (VariableBuilder.Font opts)) = Except.ok false ∧
    Is.Image (.vObj (VariableBuilder.URL opts)) = Except.ok false ∧
    Is.Image (.vObj (VariableBuilder.Font opts)) = Except.ok false ∧
    Is.Font (.vObj (VariableBuilder.URL opts)) = Except.ok false ∧
    Is.Font (.vObj (VariableBuilder.Image opts)) = Except.ok false := by
  have u_ty : getProp (VariableBuilder.URL opts) "type" =
      some (JsValue.vStr "string") := by
    simp only [VariableBuilder.URL]; rw [getProp_sandwich]; simp
  have u_f : getProp (VariableBuilder.URL opts) "format" =
      some (JsValue.vStr URI_REFERENCE) := by
    simp only [VariableBuilder.URL]
    rw [getProp_sandwich_other _ _ _ (by decide) (by decide), hf]
    rfl
  have u_c : getProp (VariableBuilder.URL opts) "contentMediaType" = none := by
    simp only [VariableBuilder.URL]
    rw [getProp_sandwich_other _ _ _ (by decide) (by decide), hc]
    rfl
  have i_ty : getProp (VariableBuilder.Image opts) "type" =
      some (JsValue.vStr "string") := by
    simp only [VariableBuilder.Image]; rw [getProp_sandwich]; simp
  have i_f : getProp (VariableBuilder.Image opts) "format" =
      some (JsValue.vStr URI_REFERENCE) := by
    simp only [VariableBuilder.Image]
    rw [getProp_sandwich_other _ _ _ (by decide) (by decide), hf]
    rfl
  have i_c : getProp (VariableBuilder.Image opts) "contentMediaType" =
      some (JsValue.vStr MIME_IMAGE) := by
    simp only [VariableBuilder.Image]
    rw [getProp_sandwich_other _ _ _ (by decide) (by decide), hc]
    rfl
  have f_ty : getProp (VariableBuilder.Font opts) "type" =
      some (JsValue.vStr "string") := by
    simp only [VariableBuilder.Font]; rw [getProp_sandwich]; simp
  have f_f : getProp (VariableBuilder.Font opts) "format" = none := by
    simp only [VariableBuilder.Font]
    rw [getProp_sandwich_other _ _ _ (by decide) (by decide), hf]
    rfl
  have f_c : getProp (VariableBuilder.Font opts) "contentMediaType" =
      some (JsValue.vStr MIME_FONT) := by
    simp only [VariableBuilder.Font]
    rw [getProp_sandwich_other _ _ _ (by decide) (by decide), hc]
    rfl
  refine ⟨?_, ?_, ?_, ?_, ?_, ?_, ?_, ?_, ?_⟩
  · rw [isURL_obj, u_ty, u_f]; rfl
  · simp only [Is.Image]
    rw [isURL_obj, i_ty, i_f]
    simp only [Option.getD_some, Except.bind]
    rw [if_pos (show (strEq (JsValue.vStr "string") "string" &&
      strEq (JsValue.vStr URI_REFERENCE) URI_REFERENCE) = true from rfl)]
    simp only [getMember]
    rw [i_c]
    rfl
  · rw [isFont_obj, f_ty, f_c]; rfl
  · rw [isURL_obj, i_ty, i_f]; rfl
  · rw [isURL_obj, f_ty, f_f]; rfl
  · simp only [Is.Image]
    rw [isURL_obj, u_ty, u_f]
    simp only [Option.getD_some, Except.bind]
    rw [if_pos (show (strEq (JsValue.vStr "string") "string" &&
      strEq (JsValue.vStr URI_REFERENCE) URI_REFERENCE) = true from rfl)]
    simp only [getMember]
    rw [u_c]
    rfl
  · simp only [Is.Image]
    rw [isURL_obj, f_ty, f_f]
    rfl
  · rw [isFont_obj, u_ty, u_c]; rfl
  · rw [isFont_obj, i_ty, i_c]; rfl

/-- Claim C4, witness: the amended matrix at the empty options mapping. -/
theorem claim_C4_witness :
    getProp ([] : JsFields) "type" = none ∧
    getProp ([] : JsFields) "format" = none ∧
    getProp ([] : JsFields) "contentMediaType" = none ∧
    (Is.URL (.vObj (VariableBuilder.URL [])) = Except.ok true ∧
      Is.Image (.vObj (VariableBuilder.Image [])) = Except.ok true ∧
      Is.Font (.vObj (VariableBuilder.Font [])) = Except.ok true ∧
      Is.URL (.vObj (VariableBuilder.Image [])) = Except.ok true ∧
      Is.URL (.vObj (VariableBuilder.Font [])) = Except.ok false ∧
      Is.Image (.vObj (VariableBuilder.URL [])) = Except.ok false ∧
      Is.Image (.vObj (VariableBuilder.Font [])) = Except.ok false ∧
      Is.Font (.vObj (VariableBuilder.URL [])) = Except.ok false ∧
      Is.Font (.vObj (VariableBuilder.Image [])) = Except.ok false) :=
  ⟨rfl, rfl, rfl, claim_C4_amended [] rfl rfl rfl⟩

/-- Claim C5: for options not supplying `type`, `format` or
`contentMediaType`, an `Image` fragment carries type `"string"`, format
`"uri-reference"` and contentMediaType `"image/*"`, while a `Font` fragment
carries type `"string"`, contentMediaType `"font/*"` and no `format` field at
all. -/
theorem claim_C5_image_font_markers (opts : JsFields)
    (_hty : getProp opts "type" = none)
    (hf : getProp opts "format" = none)
    (hc : getProp opts "contentMediaType" = none) :
    getProp (VariableBuilder.Image opts) "type" = some (JsValue.vStr "string") ∧
    getProp (VariableBuilder.Image opts) "format" = some (JsValue.vStr URI_REFERENCE) ∧
    getProp (VariableBuilder.Image opts) "contentMediaType" =
      some (JsValue.vStr MIME_IMAGE) ∧
    getProp (VariableBuilder.Font opts) "type" = some (JsValue.vStr "string") ∧
    getProp (VariableBuilder.Font opts) "contentMediaType" =
      some (JsValue.vStr MIME_FONT) ∧
    getProp (VariableBuilder.Font opts) "format" = none := by
  refine ⟨?_, ?_, ?_, ?_, ?_, ?_⟩
  · simp only [VariableBuilder.Image]; rw [getProp_sandwich]; simp
  · simp only [VariableBuilder.Image]
    rw [getProp_sandwich_other _ _ _ (by decide) (by decide), hf]
    rfl
  · simp only [VariableBuilder.Image]
    rw [getProp_sandwich_other _ _ _ (by decide) (by decide), hc]
    rfl
  · simp only [VariableBuilder.Font]; rw [getProp_sandwich]; simp
  · simp only [VariableBuilder.Font]
    rw [getProp_sandwich_other _ _ _ (by decide) (by decide), hc]
    rfl
  · simp only [VariableBuilder.Font]
    rw [getProp_sandwich_other _ _ _ (by decide) (by decide), hf]
    rfl

/-- Claim C5, witness: the marker facts at the empty options mapping. -/
theorem claim_C5_witness :
    getProp ([] : JsFields) "type" = none ∧
    getProp ([] : JsFields) "format" = none ∧
    getProp ([] : JsFields) "contentMediaType" = none ∧
    (getProp (VariableBuilder.Image []) "type" = some (JsValue.vStr "string") ∧
      getProp (VariableBuilder.Image []) "format" = some (JsValue.vStr URI_REFERENCE) ∧
      getProp (VariableBuilder.Image []) "contentMediaType" =
        some (JsValue.vStr MIME_IMAGE) ∧
      getProp (VariableBuilder.Font []) "type" = some (JsValue.vStr "string") ∧
      getProp (VariableBuilder.Font []) "contentMediaType" =
        some (JsValue.vStr MIME_FONT) ∧
      getProp (VariableBuilder.Font []) "format" = none) :=
  ⟨rfl, rfl, rfl, claim_C5_image_font_markers [] rfl rfl rfl⟩

/-- Claim C6: `EnumKeys` produces a fragment whose `enum` is the mapping's
keys filtered by JavaScript `isNaN` (numeric keys removed) in the original
iteration order (the filtered list is a sublist of the key list), whose `type`
is `"string"`, and in which the options are merged first while the computed
`kind`/`type`/`enum` are written last and therefore never caller-overridable;
the concrete conjuncts replay the repository's own Alignment-enum test. -/
theorem claim_C6_enumKeys :
    (∀ (item opts : JsFields) (k : String),
      getProp (VariableBuilder.EnumKeys item opts) k =
        if k = "enum" then
          some (.vArr (((item.map Prod.fst).filter (fun key => jsIsNaN key)).map .vStr))
        else if k = "type" then some (JsValue.vStr "string")
        else if k = "kind" then some EnumKind
        else getProp opts k) ∧
    (∀ item : JsFields,
      List.Sublist ((item.map Prod.fst).filter (fun key => jsIsNaN key))
        (item.map Prod.fst)) ∧
    getProp (VariableBuilder.EnumKeys
        [("Y", .vStr "flex flex-col justify-center"),
          ("X", .vStr "flex flex-row justify-center")]
        [("default", .vStr "X")]) "enum" =
      some (.vArr [.vStr "Y", .vStr "X"]) ∧
    getProp (VariableBuilder.EnumKeys
        [("Y", .vStr "flex flex-col justify-center"),
          ("X", .vStr "flex flex-row justify-center")]
        [("default", .vStr "X")]) "type" = some (JsValue.vStr "string") ∧
    getProp (VariableBuilder.EnumKeys
        [("Y", .vStr "flex flex-col justify-center"),
          ("X", .vStr "flex flex-row justify-center")]
        [("default", .vStr "X")]) "default" = some (JsValue.vStr "X") := by
  refine ⟨fun item opts k => ?_, fun item => List.filter_sublist _, rfl, rfl, rfl⟩
  simp only [VariableBuilder.EnumKeys]
  rw [getProp_append, getProp_triple]
  by_cases he : k = "enum"
  · simp [he]
  · by_cases ht : k = "type"
    · simp [he, ht]
    · by_cases hk : k = "kind"
      · simp [he, ht, hk]
      · simp [he, ht, hk]

/-- Claim C7: under explicit state passing, `parse` leaves the caller instance
in its original state for every engine and instance (it reads the instance
only through the JSON clone), while `validate` runs the engine on the instance
itself, so the instance's post-call state is the engine-mutated value and only
the boolean is returned; concretely, the defaults engine fills `number: 32`
into the caller's empty object under `validate` but not under `parse`. -/
theorem claim_C7_parse_pure_validate_mutates :
    (∀ (E : AjvEngine) (v : JsValue),
      (Validator.parseSt E v).2 = v ∧
      Validator.validate E v = ((E.run v).2.1, (E.run v).1)) ∧
    Validator.validate defaultsEngine (.vObj []) =
      (true, .vObj [("number", .vNum 32)]) ∧
    (Validator.parseSt defaultsEngine (.vObj [])).2 = .vObj [] ∧
    Validator.parse defaultsEngine (.vObj []) =
      .ok ⟨.vObj [("number", .vNum 32)], true, none⟩ :=
  ⟨fun _ _ => ⟨rfl, rfl⟩, rfl, rfl, rfl⟩

/-- Claim C8: `REGEX_COLOR_HEX` accepts exactly the strings made of an
optional leading `#` followed by three, four, six or eight hex digits of
either case; the constructor registers it under the format name `color-hex`;
and against a schema with a ColorHex field the modelled format engine rejects
`#ZZZZZZ` and accepts `#FFAA33` under `validate`. -/
theorem claim_C8_color_hex :
    (∀ s : String, REGEX_COLOR_HEX s = true ↔
      ∃ core : List Char,
        (s.data = core ∨ s.data = '#' :: core) ∧
        (∀ c ∈ core, isHexChar c = true) ∧
        (core.length = 3 ∨ core.length = 4 ∨ core.length = 6 ∨ core.length = 8)) ∧
    customFormats.lookup "color-hex" = some REGEX_COLOR_HEX ∧
    (Validator.validate
        (formatEngine [("color", VariableBuilder.ColorHex [])] customFormats)
        (.vObj [("color", .vStr "#ZZZZZZ")])).1 = false ∧
    (Validator.validate
        (formatEngine [("color", VariableBuilder.ColorHex [])] customFormats)
        (.vObj [("color", .vStr "#FFAA33")])).1 = true := by
  refine ⟨fun s => ?_, rfl, rfl, rfl⟩
  obtain ⟨l⟩ := s
  cases l with
  | nil =>
    constructor
    · intro h
      simp [REGEX_COLOR_HEX] at h
    · rintro ⟨core, hcore, hhex, hlen⟩
      rcases hcore with hcore | hcore
      · rw [show (String.mk []).data = [] from rfl] at hcore
        rw [← hcore] at hlen
        simp at hlen
      · exact absurd hcore (by simp)
  | cons c rest =>
    by_cases hc : c = '#'
    · subst hc
      have hcore : (if (String.mk ('#' :: rest)).data.head? = some '#'
          then (String.mk ('#' :: rest)).data.tail
          else (String.mk ('#' :: rest)).data) = rest := by simp
      constructor
      · intro h
        simp only [REGEX_COLOR_HEX, hcore] at h
        rw [Bool.and_eq_true, Bool.or_eq_true, Bool.or_eq_true, Bool.or_eq_true] at h
        refine ⟨rest, Or.inr rfl, ?_, ?_⟩
        · exact fun ch hch => List.all_eq_true.mp h.1 ch hch
        · rcases h.2 with ((h3 | h4) | h6) | h8
          · exact Or.inl (of_decide_eq_true h3)
          · exact Or.inr (Or.inl (of_decide_eq_true h4))
          · exact Or.inr (Or.inr (Or.inl (of_decide_eq_true h6)))
          · exact Or.inr (Or.inr (Or.inr (of_decide_eq_true h8)))
      · rintro ⟨core, hco, hhex, hlen⟩
        rcases hco with hco | hco
        · exfalso
          have hmem : '#' ∈ core := by
            rw [show (String.mk ('#' :: rest)).data = '#' :: rest from rfl] at hco
            rw [← hco]
            exact List.mem_cons_self _ _
          have := hhex '#' hmem
          simp [isHexChar] at this
        · have hrest : rest = core := by
            rw [show (String.mk ('#' :: rest)).data = '#' :: rest from rfl] at hco
            injection hco
          subst hrest
          simp only [REGEX_COLOR_HEX, hcore]
          rw [Bool.and_eq_true]
          refine ⟨List.all_eq_true.mpr hhex, ?_⟩
          rw [Bool.or_eq_true, Bool.or_eq_true, Bool.or_eq_true]
          rcases hlen with h3 | h4 | h6 | h8
          · exact Or.inl (Or.inl (Or.inl (decide_eq_true h3)))
          · exact Or.inl (Or.inl (Or.inr (decide_eq_true h4)))
          · exact Or.inl (Or.inr (decide_eq_true h6))
          · exact Or.inr (decide_eq_true h8)
    · have hcore : (if (String.mk (c :: rest)).data.head? = some '#'
          then (String.mk (c :: rest)).data.tail
          else (String.mk (c :: rest)).data) = c :: rest := by
        simp [hc]
      constructor
      · intro h
        simp only [REGEX_COLOR_HEX, hcore] at h
        rw [Bool.and_eq_true, Bool.or_eq_true, Bool.or_eq_true, Bool.or_eq_true] at h
        refine ⟨c :: rest, Or.inl rfl, ?_, ?_⟩
        · exact fun ch hch => List.all_eq_true.mp h.1 ch hch
        · rcases h.2 with ((h3 | h4) | h6) | h8
          · exact Or.inl (of_decide_eq_true h3)
          · exact Or.inr (Or.inl (of_decide_eq_true h4))
          · exact Or.inr (Or.inr (Or.inl (of_decide_eq_true h6)))
          · exact Or.inr (Or.inr (Or.inr (of_decide_eq_true h8)))
      · rintro ⟨core, hco, hhex, hlen⟩
        rcases hco with hco | hco
        · rw [show (String.mk (c :: rest)).data = c :: rest from rfl] at hco
          subst hco
          simp only [REGEX_COLOR_HEX, hcore]
          rw [Bool.and_eq_true]
          refine ⟨List.all_eq_true.mpr hhex, ?_⟩
          rw [Bool.or_eq_true, Bool.or_eq_true, Bool.or_eq_true]
          rcases hlen with h3 | h4 | h6 | h8
          · exact Or.inl (Or.inl (Or.inl (decide_eq_true h3)))
          · exact Or.inl (Or.inl (Or.inr (decide_eq_true h4)))
          · exact Or.inl (Or.inr (decide_eq_true h6))
          · exact Or.inr (decide_eq_true h8)
        · exfalso
          rw [show (String.mk (c :: rest)).data = c :: rest from rfl] at hco
          exact hc (by injection hco)

/-- Claim C9: `EnumKeys` keeps exactly the keys on which JavaScript `isNaN`
(after string-to-number coercion) is true, so it also drops the empty string,
decimal strings, exponential strings and whitespace-padded numerals, while
keeping keys such as `NaN`. -/
theorem claim_C9_isnan_filter :
    (∀ (item opts : JsFields),
      getProp (VariableBuilder.EnumKeys item opts) "enum" =
        some (.vArr (((item.map Prod.fst).filter (fun key => jsIsNaN key)).map .vStr))) ∧
    getProp (VariableBuilder.EnumKeys
        [("A", .vNum 1), ("", .vNum 2), ("1.5", .vNum 3), ("1e3", .vNum 4),
          ("  7  ", .vNum 5), ("NaN", .vNum 6), ("0", .vNum 7), ("hello", .vNum 8)] [])
        "enum" =
      some (.vArr [.vStr "A", .vStr "NaN", .vStr "hello"]) ∧
    jsIsNaN "" = false ∧ jsIsNaN "1.5" = false ∧ jsIsNaN "1e3" = false ∧
    jsIsNaN "  7  " = false ∧ jsIsNaN "0" = false ∧ jsIsNaN "1" = false ∧
    jsIsNaN "NaN" = true ∧ jsIsNaN "hello" = true := by
  refine ⟨fun item opts => ?_, rfl, rfl, rfl, rfl, rfl, rfl, rfl, rfl, rfl⟩
  simp only [VariableBuilder.EnumKeys]
  rw [getProp_append]
  rfl

/-- Claim C10: `parse` validates the JSON projection of the input — data is
the engine run on the round-tripped clone; `undefined` and function values do
not stringify, an object property is present in the projected fields exactly
when its value stringifies, and a `Date` projects to its `toJSON` string. -/
theorem claim_C10_json_projection :
    (∀ (E : AjvEngine) (v w : JsValue), jsonRoundTrip v = some w →
      Validator.parse E v =
        .ok ⟨(E.run w).1, (E.run w).2.1, (E.run w).2.2⟩) ∧
    jsonRoundTrip .vUndefined = none ∧
    jsonRoundTrip .vFunc = none ∧
    (∀ iso : String, jsonRoundTrip (.vDate iso) = some (.vStr iso)) ∧
    (∀ (fs : JsFields) (k : String) (w : JsValue),
      ((k, w) ∈ jsonRoundTripFields fs ↔
        ∃ x, (k, x) ∈ fs ∧ jsonRoundTrip x = some w)) ∧
    jsonRoundTrip (.vObj [("a", .vUndefined), ("f", .vFunc),
        ("d", .vDate "2021-01-01T00:00:00.000Z"), ("x", .vNum 1)]) =
      some (.vObj [("d", .vStr "2021-01-01T00:00:00.000Z"), ("x", .vNum 1)]) := by
  refine ⟨fun E v w h => ?_, rfl, rfl, fun iso => rfl, fun fs k w => ?_, rfl⟩
  · simp [Validator.parse, h]
  · induction fs with
    | nil => simp [jsonRoundTripFields]
    | cons p fs ih =>
      obtain ⟨k2, x2⟩ := p
      cases h : jsonRoundTrip x2 with
      | none =>
        rw [show jsonRoundTripFields ((k2, x2) :: fs) = jsonRoundTripFields fs by
          simp [jsonRoundTripFields, h]]
        rw [ih]
        constructor
        · rintro ⟨x, hx, hrt⟩
          exact ⟨x, List.mem_cons_of_mem _ hx, hrt⟩
        · rintro ⟨x, hx, hrt⟩
          rcases List.mem_cons.mp hx with heq | hmem
          · exfalso
            have : x = x2 := congrArg Prod.snd heq
            rw [this, h] at hrt
            exact Option.noConfusion hrt
          · exact ⟨x, hmem, hrt⟩
      | some w2 =>
        rw [show jsonRoundTripFields ((k2, x2) :: fs) = (k2, w2) :: jsonRoundTripFields fs by
          simp [jsonRoundTripFields, h]]
        rw [List.mem_cons, ih]
        constructor
        · rintro (heq | ⟨x, hx, hrt⟩)
          · have hk : k = k2 := congrArg Prod.fst heq
            have hw : w = w2 := congrArg Prod.snd heq
            subst hk; subst hw
            exact ⟨x2, List.mem_cons_self _ _, h⟩
          · exact ⟨x, List.mem_cons_of_mem _ hx, hrt⟩
        · rintro ⟨x, hx, hrt⟩
          rcases List.mem_cons.mp hx with heq | hmem
          · have hk : k = k2 := congrArg Prod.fst heq
            have hx2 : x = x2 := congrArg Prod.snd heq
            subst hk
            rw [hx2, h] at hrt
            exact Or.inl (by rw [Option.some.injEq] at hrt; rw [hrt])
          · exact Or.inr ⟨x, hmem, hrt⟩

end Flyyer


